import Mathlib

/-!
Shallow embedding of the Restaurant management system's workflow layer
(`Restaurant/models.py`, `Restaurant/serializers.py`, `Restaurant/views.py`).

Monetary `Decimal` values are modelled as rationals (`ℚ`); counts and ids as
naturals.  Each HTTP handler is modelled as a function from the relevant slice
of database state to a response together with the post-state; a handler that
returns an error response before writing anything returns the input state
unchanged, mirroring the control flow of the Python source.
-/

/-- HTTP-level outcome of a handler: success, or a 4xx/5xx error response. -/
inductive Resp where
  | created : Resp
  | okResp : Resp
  | badRequest (msg : String) : Resp
  | notFound (msg : String) : Resp
  deriving DecidableEq, Repr

/-- Enum `Order.STATUS_CHOICES` in `models.py`. -/
inductive OrderStatus where
  | PENDING | IN_PROGRESS | SERVED | CANCELLED
  deriving DecidableEq, Repr

/-- Enum `Payment.PAYMENT_STATUS_CHOICES` in `models.py`. -/
inductive PaymentStatus where
  | PENDING | COMPLETED | FAILED | REFUNDED
  deriving DecidableEq, Repr

/-- Enum `Reservation.STATUS_CHOICES` in `models.py`. -/
inductive ResStatus where
  | BOOKED | COMPLETED | CANCELLED
  deriving DecidableEq, Repr

/-- The `MenuItem` model: id (primary key), price, availability flag. -/
structure MenuItem where
  id : ℕ
  price : ℚ
  available : Bool
  deriving DecidableEq, Repr

/-- The `Table` model: id (primary key), table_number, capacity, is_available. -/
structure Table where
  id : ℕ
  table_number : ℕ
  capacity : ℕ
  is_available : Bool
  deriving DecidableEq, Repr

/-- The `OrderItem` model: id, menu item foreign key, quantity, price snapshot.
`OrderItem.save` sets `price` from the menu item when falsy; every creation
site in the source already passes `price=menu_item.price`, so the stored
price always equals the menu item's price at add-time. -/
structure OrderItem where
  id : ℕ
  menu_item_id : ℕ
  quantity : ℕ
  price : ℚ
  special_instructions : String
  deriving DecidableEq, Repr

/-- The `Order` model fields relevant to the workflow layer. -/
structure Order where
  customer_name : String
  total_price : ℚ
  status : OrderStatus
  notes : String
  deriving DecidableEq, Repr

/-- Embeds `Order.calculate_total` (models.py): sum of
`item.price * item.quantity` over the order's items (the persisting `save()`
is the assignment of the result to `total_price` at each call site). -/
def calculate_total (items : List OrderItem) : ℚ :=
  (items.map (fun it => it.price * (it.quantity : ℚ))).sum

/-- One order together with its `order_items` rows. `nextId` models the
auto-increment primary key counter for order items. -/
structure OrderState where
  order : Order
  items : List OrderItem
  nextId : ℕ
  deriving DecidableEq, Repr

/-- The §3 invariant: the stored `total_price` equals the recomputed sum. -/
def totalInvariant (s : OrderState) : Prop :=
  s.order.total_price = calculate_total s.items

instance (s : OrderState) : Decidable (totalInvariant s) := by
  unfold totalInvariant; infer_instance

/-- One line of the `items` array in an order-creation payload
(`{menu_item_id, quantity, special_instructions?}`).  The model always carries
both required keys, so the "Each item must have 'menu_item_id' and 'quantity'"
branch of `validate_items` never fires here. -/
structure ItemReq where
  menu_item_id : ℕ
  quantity : ℕ
  special_instructions : String
  deriving DecidableEq, Repr

/-- Order-creation payload of `OrderCreateSerializer`. -/
structure OrderReq where
  customer_name : String
  notes : String
  items : List ItemReq
  deriving DecidableEq, Repr

/-- Per-item body of the loop in `OrderCreateSerializer.validate_items`:
`MenuItem.objects.get(id=...)` then the `available` check. -/
def check_item (menu : List MenuItem) (d : ItemReq) : Except String Unit :=
  match menu.find? (fun m => m.id == d.menu_item_id) with
  | none => .error "Menu item does not exist"
  | some m => if ¬ m.available then .error "currently unavailable" else .ok ()

/-- The `for item in value` loop of `validate_items`, stopping at the first
failing item. -/
def check_items (menu : List MenuItem) : List ItemReq → Except String Unit
  | [] => .ok ()
  | d :: rest =>
    match check_item menu d with
    | .error e => .error e
    | .ok _ => check_items menu rest

/-- Embeds `OrderCreateSerializer.validate_items`: empty list rejected, then each
item must reference an existing, available menu item. -/
def validate_items (menu : List MenuItem) (value : List ItemReq) :
    Except String Unit :=
  if value.isEmpty then .error "Order must contain at least one item"
  else check_items menu value

/-- The item-creation loop in `OrderCreateSerializer.create`: one `OrderItem`
per input line, price snapshotted from the menu item's current price.
`none` models the `MenuItem.DoesNotExist` exception (unreachable after
`validate_items` succeeds). -/
def build_items (menu : List MenuItem) (startId : ℕ) :
    List ItemReq → Option (List OrderItem)
  | [] => some []
  | d :: rest =>
    match menu.find? (fun m => m.id == d.menu_item_id) with
    | none => none
    | some m =>
      (build_items menu (startId + 1) rest).map
        (fun tl =>
          { id := startId, menu_item_id := d.menu_item_id,
            quantity := d.quantity, price := m.price,
            special_instructions := d.special_instructions } :: tl)

/-- Embeds `OrderCreateSerializer.create` restricted to the new order itself: builds
the order items, accumulates `total += order_item.price * order_item.quantity`
and stores the result in `total_price` (status starts at the model default
`PENDING`).  The table side effect is applied by `order_create_view` below. -/
def OrderCreateSerializer.create (menu : List MenuItem) (req : OrderReq) :
    Option OrderState :=
  (build_items menu 0 req.items).map
    (fun its =>
      { order :=
          { customer_name := req.customer_name,
            total_price := (its.map (fun it => it.price * (it.quantity : ℚ))).sum,
            status := .PENDING, notes := req.notes },
        items := its, nextId := its.length })

/-- Database slice used by the order-creation endpoint: the menu, the
existing orders (with their items) and the table referenced by the request. -/
structure Db where
  menu : List MenuItem
  orders : List OrderState
  table : Table
  deriving DecidableEq, Repr

/-- The order-creation endpoint (`OrderViewSet.create` through
`OrderCreateSerializer`): `is_valid` runs `validate_items` first, so a
validation failure returns HTTP 400 with no records written; on success the
order and its items are created and the table is marked unavailable. -/
def order_create_view (db : Db) (req : OrderReq) : Resp × Db :=
  match validate_items db.menu req.items with
  | .error e => (.badRequest e, db)
  | .ok _ =>
    match OrderCreateSerializer.create db.menu req with
    | none => (.notFound "Menu item does not exist", db)
    | some st =>
      (.created,
        { db with
            orders := db.orders ++ [st],
            table := { db.table with is_available := false } })

/-- The item-level mutations of `OrderViewSet`. -/
inductive OrderOp where
  | add (menu_item_id : ℕ) (quantity : ℕ) (special_instructions : String)
  | remove (item_id : ℕ)
  deriving DecidableEq, Repr

/-- Embeds `OrderViewSet.add_item` / `OrderViewSet.remove_item` acting on one order.
A request that fails its guard (served/cancelled order, unknown or
unavailable menu item, unknown order item) returns an error response without
mutating, so the state is returned unchanged; a successful mutation ends with
`order.calculate_total()`. -/
def applyOrderOp (menu : List MenuItem) (s : OrderState) : OrderOp → OrderState
  | .add menu_item_id quantity special_instructions =>
    if s.order.status = .SERVED ∨ s.order.status = .CANCELLED then s
    else
      match menu.find? (fun m => m.id == menu_item_id && m.available) with
      | none => s
      | some m =>
        let items := s.items ++
          [{ id := s.nextId, menu_item_id := menu_item_id,
             quantity := quantity, price := m.price,
             special_instructions := special_instructions }]
        { order := { s.order with total_price := calculate_total items },
          items := items, nextId := s.nextId + 1 }
  | .remove item_id =>
    if s.order.status = .SERVED ∨ s.order.status = .CANCELLED then s
    else if (s.items.find? (fun it => it.id == item_id)).isSome then
      let items := s.items.filter (fun it => ¬ it.id = item_id)
      { s with
          order := { s.order with total_price := calculate_total items },
          items := items }
    else s

/-- The `Reservation` model fields used by the conflict check. -/
structure Reservation where
  id : ℕ
  table_id : ℕ
  date : ℕ
  time : ℕ
  party_size : ℕ
  status : ResStatus
  deriving DecidableEq, Repr

/-- The filter of `ReservationSerializer.validate`'s double-booking query:
same table, date and time, with `status='BOOKED'`. -/
def is_conflict (table_id d t : ℕ) (r : Reservation) : Bool :=
  r.table_id == table_id && r.date == d && r.time == t && r.status == .BOOKED

/-- Embeds `ReservationSerializer.validate`: first the capacity check (guarded by
Python truthiness of `data.get('party_size')`, i.e. `party_size ≠ 0`), then
the double-booking query, excluding `self.instance` on an update. -/
def reservation_validate (db : List Reservation) (inst : Option ℕ)
    (tbl : Table) (d t party_size : ℕ) : Except String Unit :=
  if party_size ≠ 0 ∧ party_size > tbl.capacity then
    .error "Party size exceeds table capacity"
  else
    let existing := db.filter (is_conflict tbl.id d t)
    let existing :=
      match inst with
      | some pk => existing.filter (fun (r : Reservation) => ¬ r.id = pk)
      | none => existing
    if existing.isEmpty then .ok ()
    else .error "This table is already reserved for the selected date and time"

/-- Create (`inst = none`, appending a fresh row with primary key `nid`) or
update (`inst = some pk`, rewriting that row) a reservation through
`ReservationSerializer`; fails if and only if `validate` raises. -/
def reservation_create_or_update (db : List Reservation) (inst : Option ℕ)
    (tbl : Table) (d t party_size nid : ℕ) (st : ResStatus) :
    Except String (List Reservation) :=
  match reservation_validate db inst tbl d t party_size with
  | .error e => .error e
  | .ok _ =>
    match inst with
    | none =>
      .ok (db ++ [{ id := nid, table_id := tbl.id, date := d, time := t,
                    party_size := party_size, status := st }])
    | some pk =>
      .ok (db.map (fun r =>
        if r.id = pk then
          { r with table_id := tbl.id, date := d, time := t,
                   party_size := party_size, status := st }
        else r))

/-- Embeds `ReservationViewSet.cancel`: unconditionally sets `status='CANCELLED'`
on the addressed reservation. -/
def ReservationViewSet.cancel (db : List Reservation) (pk : ℕ) :
    List Reservation :=
  db.map (fun r => if r.id = pk then { r with status := .CANCELLED } else r)

/-- The `Payment` model fields (monetary `Decimal`s as `ℚ`; a blank
`transaction_id` is the empty string). -/
structure Payment where
  amount : ℚ
  payment_method : String
  payment_status : PaymentStatus
  transaction_id : String
  tip_amount : ℚ
  tax_amount : ℚ
  discount_amount : ℚ
  final_amount : ℚ
  notes : String
  deriving DecidableEq, Repr

/-- Embeds `Payment.calculate_final_amount` (models.py): recompute and persist
`final_amount = amount + tip_amount + tax_amount - discount_amount`. -/
def Payment.calculate_final_amount (p : Payment) : Payment :=
  { p with final_amount := p.amount + p.tip_amount + p.tax_amount - p.discount_amount }

/-- State slice touched by the payment actions: the payment, its order
(one-to-one) and that order's table. -/
structure PaymentCtx where
  payment : Payment
  order : Order
  table : Table
  deriving DecidableEq, Repr

/-- Embeds `PaymentViewSet.complete_payment`: reject an already-completed payment
with HTTP 400 before any write; otherwise set `payment_status='COMPLETED'`,
store the transaction id, set the order to `SERVED` and free the table. -/
def complete_payment (s : PaymentCtx) (transaction_id : String) :
    Resp × PaymentCtx :=
  if s.payment.payment_status = .COMPLETED then
    (.badRequest "Payment already completed", s)
  else
    (.okResp,
      { payment := { s.payment with payment_status := .COMPLETED,
                                    transaction_id := transaction_id },
        order := { s.order with status := .SERVED },
        table := { s.table with is_available := true } })

/-- Embeds `PaymentViewSet.refund`: only a COMPLETED payment can be refunded;
on success set `payment_status='REFUNDED'` and cancel the order.  The table
row is never touched on this path. -/
def refund (s : PaymentCtx) : Resp × PaymentCtx :=
  if ¬ s.payment.payment_status = .COMPLETED then
    (.badRequest "Can only refund completed payments", s)
  else
    (.okResp,
      { s with
          payment := { s.payment with payment_status := .REFUNDED },
          order := { s.order with status := .CANCELLED } })

/-- State slice seen by payment creation: the order and its table, with no
payment row yet. -/
structure PrePayCtx where
  order : Order
  table : Table
  deriving DecidableEq, Repr

/-- Writable payload of `PaymentSerializer` (`fields = '__all__'` minus the
read-only `payment_date`, `updated_at`, `final_amount`). -/
structure StrictCreateData where
  amount : ℚ
  payment_method : String
  payment_status : PaymentStatus
  transaction_id : String
  tip_amount : ℚ
  tax_amount : ℚ
  discount_amount : ℚ
  notes : String
  deriving DecidableEq, Repr

/-- Embeds `PaymentSerializer.validate`: when both `order` and `amount` are truthy
(`amount ≠ 0`; the model-level `MinValueValidator(0.01)` already excludes 0),
the client-supplied amount must equal the order total. -/
def PaymentSerializer.validate (order : Order) (amount : ℚ) :
    Except String Unit :=
  if amount ≠ 0 then
    if amount ≠ order.total_price then
      .error "Payment amount must match order total"
    else .ok ()
  else .ok ()

/-- Embeds `PaymentSerializer.create`: persist the client-supplied fields, run
`calculate_final_amount`, and if the client-supplied status is COMPLETED mark
the order SERVED.  `table` is never written on this path. -/
def PaymentSerializer.create (c : PrePayCtx) (d : StrictCreateData) :
    PaymentCtx :=
  let p := Payment.calculate_final_amount
    { amount := d.amount, payment_method := d.payment_method,
      payment_status := d.payment_status, transaction_id := d.transaction_id,
      tip_amount := d.tip_amount, tax_amount := d.tax_amount,
      discount_amount := d.discount_amount, final_amount := 0,
      notes := d.notes }
  let o := if p.payment_status = .COMPLETED
           then { c.order with status := .SERVED } else c.order
  { payment := p, order := o, table := c.table }

/-- The strict-create endpoint: `is_valid` (running
`PaymentSerializer.validate`) and then `PaymentSerializer.create`. -/
def payment_strict_create (c : PrePayCtx) (d : StrictCreateData) :
    Except String PaymentCtx :=
  match PaymentSerializer.validate c.order d.amount with
  | .error e => .error e
  | .ok _ => .ok (PaymentSerializer.create c d)

/-- Python runtime value of a numeric expression in the payment-creation
path, keeping track of its dynamic type: `decimal.Decimal` (database
`DecimalField` values) or built-in `float` (the literal `0.08`). -/
inductive PyNum where
  | dec (q : ℚ)
  | flt (q : ℚ)
  deriving DecidableEq, Repr

/-- Underlying numeric value of a `PyNum`. -/
def PyNum.val : PyNum → ℚ
  | .dec q => q
  | .flt q => q

/-- Python `*` on numbers: `Decimal * Decimal` and `float * float` succeed;
mixing `Decimal` with `float` raises
`TypeError: unsupported operand type(s) for *: 'decimal.Decimal' and 'float'`
(modelled as `none`). -/
def pyMul : PyNum → PyNum → Option PyNum
  | .dec a, .dec b => some (.dec (a * b))
  | .flt a, .flt b => some (.flt (a * b))
  | .dec _, .flt _ => none
  | .flt _, .dec _ => none

/-- Outcome of the tax-computing payment-creation path: a serializer
validation error (HTTP 400), an unhandled `TypeError` propagating out of
`create` (HTTP 500), or a created payment. -/
inductive CreatePayResult where
  | validation_error (msg : String) : CreatePayResult
  | type_error : CreatePayResult
  | created (p : Payment) : CreatePayResult
  deriving DecidableEq, Repr

/-- Embeds `PaymentCreateSerializer` (`validate_order` then `create`): reject a
duplicate payment or a cancelled order; otherwise evaluate
`tax_amount = order.total_price * 0.08` — a `Decimal * float` product, since
`total_price` is a `DecimalField` and `0.08` a float literal — and, were that
to produce a value, build the PENDING payment and run
`calculate_final_amount`.  (The rational carried by the `float` literal is
irrelevant: the product raises `TypeError` on the types alone.) -/
def PaymentCreateSerializer.create (order : Order) (has_payment : Bool)
    (payment_method : String) (tip_amount discount_amount : ℚ)
    (notes : String) : CreatePayResult :=
  if has_payment then .validation_error "This order already has a payment"
  else if order.status = .CANCELLED then
    .validation_error "Cannot create payment for cancelled order"
  else
    match pyMul (PyNum.dec order.total_price) (PyNum.flt (8 / 100)) with
    | none => .type_error
    | some tax =>
      .created (Payment.calculate_final_amount
        { amount := order.total_price, payment_method := payment_method,
          payment_status := .PENDING, transaction_id := "",
          tip_amount := tip_amount, tax_amount := tax.val,
          discount_amount := discount_amount, final_amount := 0,
          notes := notes })

/-- Row of the `orders` table as read by `ReportViewSet.daily_sales`
(`day` abstracts `timestamp__date`). -/
structure OrderRow where
  total_price : ℚ
  status : OrderStatus
  day : ℕ
  deriving DecidableEq, Repr

/-- Row of the `payments` table as read by `daily_sales`. -/
structure PaymentRow where
  final_amount : ℚ
  payment_status : PaymentStatus
  day : ℕ
  deriving DecidableEq, Repr

/-- Report record built by `ReportViewSet.daily_sales`. -/
structure DailySalesReport where
  total_orders : ℕ
  total_revenue : ℚ
  total_payments : ℕ
  total_paid : ℚ
  average_order_value : ℚ
  cancelled_orders : ℕ
  pending_orders : ℕ
  deriving DecidableEq, Repr

/-- Embeds `ReportViewSet.daily_sales`: filter that day's orders and COMPLETED
payments, aggregate, and compute
`avg_order_value = total_revenue / total_orders if total_orders > 0 else 0`.
(`aggregate(Sum(..))` yields `None` on an empty queryset, replaced by `0`
via `or 0`; the empty `List.sum` is `0` directly.) -/
def daily_sales (orders : List OrderRow) (payments : List PaymentRow)
    (d : ℕ) : DailySalesReport :=
  let os := orders.filter (fun o => o.day == d)
  let total_orders := os.length
  let total_revenue := (os.map (fun o => o.total_price)).sum
  let ps := payments.filter
    (fun p => p.day == d && p.payment_status == .COMPLETED)
  let avg := if total_orders > 0
             then total_revenue / (total_orders : ℚ) else 0
  { total_orders := total_orders,
    total_revenue := total_revenue,
    total_payments := ps.length,
    total_paid := (ps.map (fun p => p.final_amount)).sum,
    average_order_value := avg,
    cancelled_orders := (os.filter (fun o => o.status == .CANCELLED)).length,
    pending_orders :=
      (os.filter (fun o =>
        o.status == .PENDING || o.status == .IN_PROGRESS)).length }

/-! ## Shared concrete fixtures for witnesses -/

/-- A pending payment over a $20 order at an occupied table
(the fixture of `tests.py::PaymentTests`). -/
def payCtxPending : PaymentCtx :=
  { payment :=
      { amount := 20, payment_method := "CASH", payment_status := .PENDING,
        transaction_id := "", tip_amount := 0, tax_amount := 0,
        discount_amount := 0, final_amount := 20, notes := "" },
    order := { customer_name := "Test Customer", total_price := 20,
               status := .PENDING, notes := "" },
    table := { id := 1, table_number := 1, capacity := 4,
               is_available := false } }

/-- The same context with the payment already completed. -/
def payCtxCompleted : PaymentCtx :=
  { payCtxPending with
      payment := { payCtxPending.payment with payment_status := .COMPLETED } }

/-! ## Helper lemmas -/

/-- A single `add_item`/`remove_item` request re-establishes the stored
total, because every mutating branch ends in `order.calculate_total()` and
every error branch leaves the state untouched. -/
theorem applyOrderOp_total (menu : List MenuItem) (s : OrderState)
    (op : OrderOp) (h : totalInvariant s) :
    totalInvariant (applyOrderOp menu s op) := by
  cases op with
  | add mid qty instr =>
    simp only [applyOrderOp]
    split
    · exact h
    · split
      · exact h
      · simp [totalInvariant]
  | remove iid =>
    simp only [applyOrderOp]
    split
    · exact h
    · split
      · simp [totalInvariant]
      · exact h

/-- A freshly created order satisfies the total-price invariant: the running
sum accumulated in `OrderCreateSerializer.create` is exactly
`calculate_total` of the created items. -/
theorem create_totalInvariant (menu : List MenuItem) (req : OrderReq)
    (s0 : OrderState) (h : OrderCreateSerializer.create menu req = some s0) :
    totalInvariant s0 := by
  unfold OrderCreateSerializer.create at h
  cases hb : build_items menu 0 req.items with
  | none => rw [hb] at h; simp at h
  | some its =>
    rw [hb] at h
    simp only [Option.map_some'] at h
    injection h with h
    subst h
    simp [totalInvariant, calculate_total]

/-- The `validate_items` loop succeeds exactly when every input line passes
its per-item check. -/
theorem check_items_ok_iff (menu : List MenuItem) (l : List ItemReq) :
    check_items menu l = Except.ok () ↔
      ∀ d ∈ l, check_item menu d = Except.ok () := by
  induction l with
  | nil => simp [check_items]
  | cons d rest ih =>
    unfold check_items
    cases hc : check_item menu d with
    | error e => simp [hc]
    | ok u => cases u; simp [hc, ih]

/-- If some input line fails its check, the loop returns an error. -/
theorem check_items_error_of (menu : List MenuItem) (l : List ItemReq)
    (h : ¬ ∀ d ∈ l, check_item menu d = Except.ok ()) :
    ∃ e, check_items menu l = Except.error e := by
  cases hc : check_items menu l with
  | error e => exact ⟨e, rfl⟩
  | ok u =>
    cases u
    exact absurd ((check_items_ok_iff menu l).mp hc) h

/-- With distinct menu ids (the primary key of the `MenuItem` table),
looking up a known member's id returns that very row. -/
theorem find?_eq_of_mem_of_nodup (menu : List MenuItem)
    (hm : (menu.map MenuItem.id).Nodup) (m : MenuItem) (hmem : m ∈ menu)
    (x : ℕ) (hid : m.id = x) :
    menu.find? (fun m2 => m2.id == x) = some m := by
  have hsome : (menu.find? (fun m2 => m2.id == x)).isSome := by
    rw [List.find?_isSome]
    exact ⟨m, hmem, by simp [hid]⟩
  obtain ⟨m2, hm2⟩ := Option.isSome_iff_exists.mp hsome
  have hp : m2.id = x := by simpa using List.find?_some hm2
  have hmem2 := List.mem_of_find?_eq_some hm2
  have : m2 = m :=
    List.inj_on_of_nodup_map hm hmem2 hmem (by rw [hp, hid])
  rw [hm2, this]

/-- An input line naming a nonexistent or unavailable menu item fails the
per-item check. -/
theorem check_item_error_cases (menu : List MenuItem)
    (hm : (menu.map MenuItem.id).Nodup) (d : ItemReq)
    (hbad : (∀ m ∈ menu, m.id ≠ d.menu_item_id) ∨
            (∃ m ∈ menu, m.id = d.menu_item_id ∧ m.available = false)) :
    check_item menu d ≠ Except.ok () := by
  unfold check_item
  rcases hbad with hnone | ⟨m, hmem, hid, hav⟩
  · have hfind : menu.find? (fun m2 => m2.id == d.menu_item_id) = none := by
      rw [List.find?_eq_none]
      intro m hmm
      simpa using hnone m hmm
    rw [hfind]
    simp
  · rw [find?_eq_of_mem_of_nodup menu hm m hmem _ hid]
    simp [hav]

/-- With the capacity check passed, `reservation_validate` on the create
path reduces to the emptiness test of the double-booking query. -/
theorem reservation_validate_create (db : List Reservation) (tbl : Table)
    (d t ps : ℕ) (hps : ps ≤ tbl.capacity) :
    reservation_validate db none tbl d t ps =
      if (db.filter (is_conflict tbl.id d t)).isEmpty then Except.ok ()
      else Except.error
        "This table is already reserved for the selected date and time" := by
  unfold reservation_validate
  rw [if_neg (by rintro ⟨h0, hgt⟩; omega)]

/-! ## Claim theorems -/

/-- C2: for every payment whose `payment_status` is not COMPLETED,
`CompletePayment(payment, transaction_id)` succeeds and sets
`payment_status = COMPLETED`, stores the transaction id, sets the order's
status to SERVED and frees the order's table — all of these together. -/
theorem C2_complete_payment_effects (s : PaymentCtx) (tid : String)
    (h : s.payment.payment_status ≠ .COMPLETED) :
    (complete_payment s tid).1 = Resp.okResp ∧
    (complete_payment s tid).2.payment.payment_status = .COMPLETED ∧
    (complete_payment s tid).2.payment.transaction_id = tid ∧
    (complete_payment s tid).2.order.status = .SERVED ∧
    (complete_payment s tid).2.table.is_available = true := by
  simp [complete_payment, h]

/-- Witness for C2 at the pending-payment fixture. -/
theorem C2_complete_payment_effects_witness :
    (complete_payment payCtxPending "TXN123456").1 = Resp.okResp ∧
    (complete_payment payCtxPending "TXN123456").2.payment.payment_status
      = .COMPLETED ∧
    (complete_payment payCtxPending "TXN123456").2.payment.transaction_id
      = "TXN123456" ∧
    (complete_payment payCtxPending "TXN123456").2.order.status = .SERVED ∧
    (complete_payment payCtxPending "TXN123456").2.table.is_available
      = true :=
  C2_complete_payment_effects payCtxPending "TXN123456" (by decide)

/-- C5: `CompletePayment` on an already-COMPLETED payment returns the
"Payment already completed" error and leaves the payment, its order and the
order's table exactly as they were. -/
theorem C5_complete_payment_already_completed (s : PaymentCtx) (tid : String)
    (h : s.payment.payment_status = .COMPLETED) :
    complete_payment s tid = (Resp.badRequest "Payment already completed", s) := by
  simp [complete_payment, h]

/-- Witness for C5 at the completed-payment fixture. -/
theorem C5_complete_payment_already_completed_witness :
    complete_payment payCtxCompleted "TXN"
      = (Resp.badRequest "Payment already completed", payCtxCompleted) :=
  C5_complete_payment_already_completed payCtxCompleted "TXN" (by decide)

/-- C6: `RefundPayment` rejects any payment that is not COMPLETED, leaving
the state unchanged; on a COMPLETED payment it sets
`payment_status = REFUNDED` and cancels the order, while the table's
`is_available` flag is left untouched. -/
theorem C6_refund_effects (s : PaymentCtx) :
    (s.payment.payment_status ≠ .COMPLETED →
      refund s = (Resp.badRequest "Can only refund completed payments", s)) ∧
    (s.payment.payment_status = .COMPLETED →
      (refund s).2.payment.payment_status = .REFUNDED ∧
      (refund s).2.order.status = .CANCELLED ∧
      (refund s).2.table.is_available = s.table.is_available) := by
  constructor
  · intro h; simp [refund, h]
  · intro h; simp [refund, h]

/-- Witness for C6: both branches at the concrete fixtures. -/
theorem C6_refund_effects_witness :
    refund payCtxPending
      = (Resp.badRequest "Can only refund completed payments", payCtxPending) ∧
    ((refund payCtxCompleted).2.payment.payment_status = .REFUNDED ∧
     (refund payCtxCompleted).2.order.status = .CANCELLED ∧
     (refund payCtxCompleted).2.table.is_available
       = payCtxCompleted.table.is_available) :=
  ⟨(C6_refund_effects payCtxPending).1 (by decide),
   (C6_refund_effects payCtxCompleted).2 (by decide)⟩

/-- C10: creating a payment through the strict-create path
(`PaymentSerializer`) with a client-supplied `payment_status` of COMPLETED
marks the order SERVED as a side effect but leaves the table row untouched
(unlike `complete_payment`, which also frees the table). -/
theorem C10_strict_create_completed (c : PrePayCtx) (d : StrictCreateData)
    (h : d.payment_status = .COMPLETED) :
    ∀ s2, payment_strict_create c d = Except.ok s2 →
      s2.payment.payment_status = .COMPLETED ∧
      s2.order.status = .SERVED ∧
      s2.table = c.table := by
  intro s2 hok
  unfold payment_strict_create at hok
  cases hv : PaymentSerializer.validate c.order d.amount with
  | error e => rw [hv] at hok; exact absurd hok (by simp)
  | ok u =>
    rw [hv] at hok
    have hs : s2 = PaymentSerializer.create c d := by
      cases hok; rfl
    subst hs
    simp [PaymentSerializer.create, Payment.calculate_final_amount, h]

/-- Witness for C10 at a concrete strict-create request whose amount matches
the order total. -/
theorem C10_strict_create_completed_witness :
    (payment_strict_create
        { order := { customer_name := "", total_price := 20,
                     status := .PENDING, notes := "" },
          table := { id := 1, table_number := 1, capacity := 4,
                     is_available := false } }
        { amount := 20, payment_method := "CARD",
          payment_status := .COMPLETED, transaction_id := "", tip_amount := 0,
          tax_amount := 0, discount_amount := 0, notes := "" }).toOption.all
      (fun s2 =>
        s2.payment.payment_status == .COMPLETED &&
        s2.order.status == .SERVED &&
        s2.table.is_available == false) = true := by
  have := C10_strict_create_completed
    { order := { customer_name := "", total_price := 20,
                 status := .PENDING, notes := "" },
      table := { id := 1, table_number := 1, capacity := 4,
                 is_available := false } }
    { amount := 20, payment_method := "CARD", payment_status := .COMPLETED,
      transaction_id := "", tip_amount := 0, tax_amount := 0,
      discount_amount := 0, notes := "" }
    (by decide)
  decide

/-- C3 (failing input): `PaymentCreateSerializer.create` on the repository's
own test fixture — order total 20.00, tip 3.00, discount 0, no prior
payment, order not cancelled — raises `TypeError` from
`order.total_price * 0.08` (`Decimal * float`) instead of creating the
PENDING payment with tax 1.60 and final amount 24.60 that the claim (and
`tests.py::test_create_payment`) describe. -/
theorem C3_create_payment_type_error :
    PaymentCreateSerializer.create
      { customer_name := "Test Customer", total_price := 20,
        status := .PENDING, notes := "" }
      false "CARD" 3 0 "" = CreatePayResult.type_error := by
  rfl

/-- C9: `daily_sales` returns `average_order_value = total_revenue /
total_orders` whenever there is at least one order on the date, and with no
orders on the date it returns `total_orders = 0` and
`average_order_value = 0` (the division branch is guarded). -/
theorem C9_daily_sales_average (orders : List OrderRow)
    (payments : List PaymentRow) (d : ℕ) :
    ((daily_sales orders payments d).total_orders > 0 →
      (daily_sales orders payments d).average_order_value =
        (daily_sales orders payments d).total_revenue /
          ((daily_sales orders payments d).total_orders : ℚ)) ∧
    (orders.filter (fun o => o.day == d) = [] →
      (daily_sales orders payments d).total_orders = 0 ∧
      (daily_sales orders payments d).average_order_value = 0) := by
  constructor
  · intro h
    unfold daily_sales at h ⊢
    simp only at h ⊢
    rw [if_pos h]
  · intro h
    unfold daily_sales
    simp [h]

/-- Witness for C9: a date with no orders, and a date with one order. -/
theorem C9_daily_sales_average_witness :
    ((daily_sales [] [] 5).total_orders = 0 ∧
      (daily_sales [] [] 5).average_order_value = 0) ∧
    (daily_sales [{ total_price := 30, status := .SERVED, day := 5 }] [] 5).average_order_value
      = (daily_sales [{ total_price := 30, status := .SERVED, day := 5 }] [] 5).total_revenue /
        ((daily_sales [{ total_price := 30, status := .SERVED, day := 5 }] [] 5).total_orders : ℚ) :=
  ⟨(C9_daily_sales_average [] [] 5).2 rfl,
   (C9_daily_sales_average
      [{ total_price := 30, status := .SERVED, day := 5 }] [] 5).1 (by decide)⟩

/-- C8: a reservation request whose `party_size` exceeds the referenced
table's capacity is rejected with a ValidationError, for create and update
alike and whatever the table's `is_available` flag says. -/
theorem C8_party_size_exceeds_capacity (db : List Reservation)
    (inst : Option ℕ) (tbl : Table) (d t ps nid : ℕ) (st : ResStatus)
    (h : ps > tbl.capacity) :
    reservation_create_or_update db inst tbl d t ps nid st
      = Except.error "Party size exceeds table capacity" := by
  have hps : ps ≠ 0 := by omega
  unfold reservation_create_or_update reservation_validate
  rw [if_pos ⟨hps, h⟩]

/-- Witness for C8: party of 9 at a 4-seat table, create path. -/
theorem C8_party_size_exceeds_capacity_witness :
    reservation_create_or_update [] none
        { id := 1, table_number := 1, capacity := 4, is_available := true }
        10 18 9 1 .BOOKED
      = Except.error "Party size exceeds table capacity" :=
  C8_party_size_exceeds_capacity [] none
    { id := 1, table_number := 1, capacity := 4, is_available := true }
    10 18 9 1 .BOOKED (by decide)

/-- C1: after an order is created through `OrderCreateSerializer.create` and
then mutated by any sequence of `add_item`/`remove_item` requests, the
stored `total_price` equals the sum of `price * quantity` over the order's
current items — the recomputation is run on every successful mutation and
errors mutate nothing. -/
theorem C1_total_price_invariant (menu : List MenuItem) (req : OrderReq)
    (s0 : OrderState) (h : OrderCreateSerializer.create menu req = some s0)
    (ops : List OrderOp) :
    totalInvariant (ops.foldl (applyOrderOp menu) s0) := by
  have h0 : totalInvariant s0 := create_totalInvariant menu req s0 h
  clear h
  induction ops generalizing s0 with
  | nil => simpa using h0
  | cons op rest ih =>
    rw [List.foldl_cons]
    exact ih _ (applyOrderOp_total menu s0 op h0)

/-- Menu fixture for the C1 witness: one available $5 item. -/
def menuW : List MenuItem := [{ id := 1, price := 5, available := true }]

/-- Creation request for the C1 witness: two units of item 1. -/
def reqW : OrderReq :=
  { customer_name := "", notes := "",
    items := [{ menu_item_id := 1, quantity := 2,
                special_instructions := "" }] }

/-- The order `OrderCreateSerializer.create menuW reqW` builds. -/
def s0W : OrderState :=
  { order := { customer_name := "", total_price := 10, status := .PENDING,
               notes := "" },
    items := [{ id := 0, menu_item_id := 1, quantity := 2, price := 5,
                special_instructions := "" }],
    nextId := 1 }

/-- The serializer create on the witness fixtures evaluates to `s0W`. -/
theorem createW_eq : OrderCreateSerializer.create menuW reqW = some s0W := by
  norm_num [OrderCreateSerializer.create, build_items, menuW, reqW, s0W,
    List.find?]

/-- Witness for C1: create, then one add and one remove. -/
theorem C1_total_price_invariant_witness :
    OrderCreateSerializer.create menuW reqW = some s0W ∧
    totalInvariant
      (([OrderOp.add 1 3 "", OrderOp.remove 0]).foldl
        (applyOrderOp menuW) s0W) :=
  ⟨createW_eq,
   C1_total_price_invariant menuW reqW s0W createW_eq
     [OrderOp.add 1 3 "", OrderOp.remove 0]⟩

/-- C4: a second BOOKED reservation for an already-BOOKED (table, date,
time) triple is rejected; once the blocking reservation is the only
conflict and gets cancelled, an identical new reservation succeeds; and on
an update the record being edited is excluded from its own conflict
check. -/
theorem C4_reservation_double_booking (db : List Reservation) (tbl : Table)
    (d t ps nid : ℕ) (hps : ps ≤ tbl.capacity) :
    ((∃ r ∈ db, is_conflict tbl.id d t r = true) →
      reservation_create_or_update db none tbl d t ps nid .BOOKED
        = Except.error
          "This table is already reserved for the selected date and time") ∧
    (∀ r0 ∈ db, is_conflict tbl.id d t r0 = true →
      (∀ r ∈ db, is_conflict tbl.id d t r = true → r.id = r0.id) →
      (∃ db2, reservation_create_or_update
          (ReservationViewSet.cancel db r0.id) none tbl d t ps nid .BOOKED
            = Except.ok db2) ∧
      reservation_validate db (some r0.id) tbl d t ps = Except.ok ()) := by
  constructor
  · rintro ⟨r, hr, hc⟩
    have hne : db.filter (is_conflict tbl.id d t) ≠ [] :=
      List.ne_nil_of_mem (List.mem_filter.mpr ⟨hr, hc⟩)
    unfold reservation_create_or_update
    rw [reservation_validate_create db tbl d t ps hps,
        if_neg (by simpa [List.isEmpty_iff] using hne)]
  · intro r0 hr0 hc0 huniq
    constructor
    · have hfil : (ReservationViewSet.cancel db r0.id).filter
          (is_conflict tbl.id d t) = [] := by
        rw [List.filter_eq_nil_iff]
        intro r' hr'
        unfold ReservationViewSet.cancel at hr'
        rw [List.mem_map] at hr'
        obtain ⟨r, hr, heq⟩ := hr'
        by_cases hid : r.id = r0.id
        · rw [if_pos hid] at heq
          subst heq
          simp [is_conflict]
        · rw [if_neg hid] at heq
          subst heq
          intro hc
          exact hid (huniq r hr hc)
      refine ⟨ReservationViewSet.cancel db r0.id ++
        [{ id := nid, table_id := tbl.id, date := d, time := t,
           party_size := ps, status := .BOOKED }], ?_⟩
      unfold reservation_create_or_update
      rw [reservation_validate_create _ tbl d t ps hps, hfil]
      simp
    · unfold reservation_validate
      rw [if_neg (by rintro ⟨h0, hgt⟩; omega)]
      have hfil2 : (db.filter (is_conflict tbl.id d t)).filter
          (fun (r : Reservation) => ¬ r.id = r0.id) = [] := by
        rw [List.filter_eq_nil_iff]
        intro r hr
        rw [List.mem_filter] at hr
        simpa using huniq r hr.1 hr.2
      simp only [hfil2]
      rfl

/-- Reservation fixture for the C4 witness. -/
def resW : Reservation :=
  { id := 1, table_id := 1, date := 10, time := 18, party_size := 2,
    status := .BOOKED }

/-- Table fixture for the C4 witness. -/
def tblW : Table :=
  { id := 1, table_number := 1, capacity := 4, is_available := true }

/-- Witness for C4: with `resW` booked, an identical request fails; after
cancelling `resW`, it succeeds. -/
theorem C4_reservation_double_booking_witness :
    reservation_create_or_update [resW] none tblW 10 18 2 2 .BOOKED
      = Except.error
        "This table is already reserved for the selected date and time" ∧
    (∃ db2, reservation_create_or_update
        (ReservationViewSet.cancel [resW] 1) none tblW 10 18 2 2 .BOOKED
          = Except.ok db2) :=
  ⟨(C4_reservation_double_booking [resW] tblW 10 18 2 2 (by decide)).1
      ⟨resW, by decide, by decide⟩,
   ((C4_reservation_double_booking [resW] tblW 10 18 2 2 (by decide)).2
      resW (by decide) (by decide) (by decide)).1⟩

/-- C7: an order-creation request with an empty items list, a nonexistent
menu item id, or an unavailable menu item is rejected with HTTP 400 and
writes nothing — the orders, order items and table availability are exactly
as before. -/
theorem C7_create_order_bad_input (db : Db) (req : OrderReq)
    (hm : (db.menu.map MenuItem.id).Nodup)
    (hbad : req.items = [] ∨ ∃ it ∈ req.items,
        (∀ m ∈ db.menu, m.id ≠ it.menu_item_id) ∨
        (∃ m ∈ db.menu, m.id = it.menu_item_id ∧ m.available = false)) :
    ∃ e, order_create_view db req = (Resp.badRequest e, db) := by
  have hval : ∃ e, validate_items db.menu req.items = Except.error e := by
    rcases hbad with hnil | ⟨it, hit, hbadit⟩
    · exact ⟨"Order must contain at least one item",
        by simp [validate_items, hnil]⟩
    · have hne : ¬ req.items.isEmpty = true := by
        rw [List.isEmpty_iff]
        exact List.ne_nil_of_mem hit
      obtain ⟨e, he⟩ := check_items_error_of db.menu req.items (by
        intro hall
        exact check_item_error_cases db.menu hm it hbadit (hall it hit))
      exact ⟨e, by simp [validate_items, hne, he]⟩
  obtain ⟨e, he⟩ := hval
  exact ⟨e, by simp [order_create_view, he]⟩

/-- Database fixture for the C7 witness: item 2 exists but is
unavailable. -/
def dbW : Db :=
  { menu := [{ id := 1, price := 5, available := true },
             { id := 2, price := 7, available := false }],
    orders := [],
    table := { id := 1, table_number := 1, capacity := 4,
               is_available := true } }

/-- Witness for C7: ordering the unavailable item 2 is rejected and the
database is returned unchanged. -/
theorem C7_create_order_bad_input_witness :
    ∃ e, order_create_view dbW
        { customer_name := "", notes := "",
          items := [{ menu_item_id := 2, quantity := 1,
                      special_instructions := "" }] }
      = (Resp.badRequest e, dbW) :=
  C7_create_order_bad_input dbW
    { customer_name := "", notes := "",
      items := [{ menu_item_id := 2, quantity := 1,
                  special_instructions := "" }] }
    (by decide) (by decide)
